import Mathlib

namespace MidiGraph

/-!
Shallow embedding of the `bevy-midi-graph` graph compiler
(`src/asset/loader.rs`, `GraphAssetLoader::load_source_recursive`) together
with the spec-level control-channel protocol, and proofs of the claims
about it.

Conventions of the embedding:
* Rust `f32` construction parameters are never computed with inside the
  loader; they are carried opaquely as bit patterns (`F32 := Nat`).
* Loaded asset byte buffers are `Bytes := List Nat`.
* The Bevy asset stores (`asset_server.load` followed by `Assets::get`)
  are collapsed into one partial lookup per store (`Stores`).
* The fallible constructors of the external `midi_graph` crate
  (`util::midi_builder_from_bytes`, `MidiSourceBuilder::build`,
  `util::soundfont_from_bytes`, `util::wav_from_bytes`,
  `util::one_shot_from_bytes`, `SoundFontBuilder::add_range`) are not part
  of this repository; they are taken as an explicit parameter record
  `Ext` of fallible oracles, so every theorem quantifies over their
  behaviour.
-/

/-- Bit pattern of a Rust `f32` construction constant; the loader only
passes these through, it never computes with them. -/
abbrev F32 := Nat

/-- A loaded byte buffer, as resolved by the Bevy asset stores. -/
abbrev Bytes := List Nat

/-- Mirrors `midi_graph::Error` as used by the loader: `Error::User(String)`
plus the other (internal) variants surfaced by the external fallible
constructors, kept abstract. -/
inductive Err where
  | User (message : String)
  | Internal (code : Nat)
deriving DecidableEq, Repr

/-- Mirrors `MidiDataSource` (only the `FilePath` variant exists). -/
inductive MidiDataSource where
  | FilePath (path : String)
deriving DecidableEq, Repr

/-- Mirrors the loop-range configuration carried by
`SoundSource::SampleFilePath { looping }`. Modelled from the spec: the
config type lives in the external crate; the spec only requires "an
optional loop-range", so it is kept as an opaque pair of frame bounds. -/
structure LoopConfig where
  startFrame : Nat
  endFrame : Nat
deriving DecidableEq, Repr

/-- Mirrors `midi_graph::LoopRange`. Modelled from the spec: the loader
converts a `LoopConfig` with `LoopRange::from_config` and hands it to the
wav constructor unchanged. -/
structure LoopRange where
  startFrame : Nat
  endFrame : Nat
deriving DecidableEq, Repr

/-- Mirrors `LoopRange::from_config`. Modelled from the spec: a plain
conversion of the declared loop bounds. -/
def LoopRange.fromConfig (c : LoopConfig) : LoopRange :=
  ⟨c.startFrame, c.endFrame⟩

/-- Mirrors `midi_graph::NoteRange` built by
`NoteRange::new_inclusive_range(lower, upper)`: an inclusive MIDI-note
interval. -/
structure NoteRange where
  lower : Nat
  upper : Nat
deriving DecidableEq, Repr

/-- Mirrors `NoteRange::new_inclusive_range`. -/
def NoteRange.newInclusiveRange (lower upper : Nat) : NoteRange :=
  ⟨lower, upper⟩

/-- Mirrors `midi_graph::SoundSource`, the Source Description tree.
The Rust `Font { config : FontSource }` variant is flattened into the two
constructors `FontRanges` and `FontSf2FilePath`, one per `FontSource`
variant; a `RangeSource` entry `{ lower, upper, source }` is carried as
the triple `(lower, upper, source)`, and the MIDI channel map as a list
of `(channel, source)` pairs. -/
inductive SoundSource where
  | Midi (nodeId : Nat) (source : MidiDataSource)
      (channels : List (Nat × SoundSource))
  | EventReceiver (nodeId : Nat) (source : SoundSource)
  | FontRanges (nodeId : Nat) (ranges : List (Nat × Nat × SoundSource))
  | FontSf2FilePath (nodeId : Nat) (path : String) (instrumentIndex : Nat)
  | SquareWave (nodeId : Nat) (amplitude dutyCycle : F32)
  | TriangleWave (nodeId : Nat) (amplitude : F32)
  | SawtoothWave (nodeId : Nat) (amplitude : F32)
  | LfsrNoise (nodeId : Nat) (amplitude : F32) (insideFeedback : Bool)
      (noteFor16Shifts : Nat)
  | SampleFilePath (nodeId : Nat) (path : String) (baseNote : Nat)
      (looping : Option LoopConfig)
  | OneShotFilePath (nodeId : Nat) (path : String)
  | Envelope (nodeId : Nat)
      (attackTime decayTime sustainMultiplier releaseTime : F32)
      (source : SoundSource)
  | Combiner (nodeId : Nat) (sources : List SoundSource)
  | Mixer (nodeId : Nat) (balance : F32) (source0 source1 : SoundSource)
  | Fader (nodeId : Nat) (initialVolume : F32) (source : SoundSource)

/-- Mirrors `midi_graph::EventChannel` for the purpose of the loader: the
inbound control queue handle created by `AsyncEventReceiver::new` for one
receiver node. It is tagged with the node identifier of the receiver that
owns it. -/
structure EventChannel where
  forNode : Nat
deriving DecidableEq, Repr

/-- The compiled runtime `Node` tree (`Box<dyn Node>` values built by the
loader). Nodes whose construction is performed wholly inside the external
crate (`midi`, `sf2`, `sample`, `oneShot`) carry the opaque representation
returned by the corresponding external constructor. -/
inductive Node where
  | midi (rep : Nat)
  | asyncEventReceiver (nodeId : Nat) (child : Node)
  | font (nodeId : Nat) (ranges : List (NoteRange × Node))
  | sf2 (rep : Nat)
  | squareWave (nodeId : Nat) (amplitude dutyCycle : F32)
  | triangleWave (nodeId : Nat) (amplitude : F32)
  | sawtoothWave (nodeId : Nat) (amplitude : F32)
  | lfsrNoise (nodeId : Nat) (amplitude : F32) (insideFeedback : Bool)
      (noteFor16Shifts : Nat)
  | sample (rep : Nat)
  | oneShot (rep : Nat)
  | envelope (nodeId : Nat)
      (attackTime decayTime sustainMultiplier releaseTime : F32)
      (child : Node)
  | combiner (nodeId : Nat) (children : List Node)
  | mixer (nodeId : Nat) (balance : F32) (child0 child1 : Node)
  | fader (nodeId : Nat) (initialVolume : F32) (child : Node)

/-- Mirrors `AsyncEventReceiver::new(node_id, source)`. Modelled from the
spec: the constructor lives in the external crate; the spec fixes its
contract — wrap the child in an adapter node and return it together with
a fresh Control Channel owned by that adapter. -/
def AsyncEventReceiver.new (nodeId : Nat) (child : Node) :
    EventChannel × Node :=
  (⟨nodeId⟩, Node.asyncEventReceiver nodeId child)

/-- State of a `MidiSourceBuilder` while the loader adds channel sources:
the opaque parsed-sequence state returned by
`util::midi_builder_from_bytes`, plus the channel sources added so far. -/
structure MidiBuilder where
  parsed : Nat
  channels : List (Nat × Node)

/-- Mirrors `MidiSourceBuilder::add_channel_source(channel, font)`
(infallible in the loader: no `?` at its call site). -/
def MidiBuilder.addChannelSource (b : MidiBuilder) (channel : Nat)
    (font : Node) : MidiBuilder :=
  { b with channels := b.channels ++ [(channel, font)] }

/-- State of a `SoundFontBuilder`: the node identifier it was created with
and the note-range/child pairs added so far. -/
structure FontBuilder where
  nodeId : Nat
  ranges : List (NoteRange × Node)

/-- Mirrors `SoundFontBuilder::new(node_id)`. -/
def FontBuilder.new (nodeId : Nat) : FontBuilder :=
  ⟨nodeId, []⟩

/-- Mirrors `SoundFontBuilder::build()` (infallible at its call site):
produces the font node from the accumulated ranges. -/
def FontBuilder.build (b : FontBuilder) : Node :=
  Node.font b.nodeId b.ranges

/-- The four Bevy asset stores consulted by the loader, each collapsed to
one partial lookup (`asset_server.load(path)` followed by
`assets.get(handle.id())`): `none` means the asset is not loaded. -/
structure Stores where
  midiAssets : String → Option Bytes
  sf2Assets : String → Option Bytes
  loopAssets : String → Option Bytes
  oneShotAssets : String → Option Bytes

/-- The fallible constructors of the external `midi_graph` crate used by
the loader, taken as oracles: each may fail with any `Err`, and on success
returns the opaque representation of what it built. -/
structure Ext where
  midiBuilderFromBytes : Nat → Bytes → Except Err Nat
  midiBuild : MidiBuilder → Except Err Nat
  soundfontFromBytes : Nat → Bytes → Nat → Except Err Nat
  wavFromBytes : Bytes → Nat → Option LoopRange → Nat → Except Err Nat
  oneShotFromBytes : Bytes → Nat → Except Err Nat
  fontAddRange : FontBuilder → NoteRange → Node → Except Err FontBuilder

mutual

/-- Shallow embedding of `GraphAssetLoader::load_source_recursive`
(src/asset/loader.rs lines 36-228): compiles a Source Description into the
collected Control Channels and the constructed node, or the first error. -/
def load (ext : Ext) (st : Stores) :
    SoundSource → Except Err (List EventChannel × Node)
  | .Midi nodeId source channels =>
    match source with
    | .FilePath path =>
      match st.midiAssets path with
      | none => .error (.User ("File not loaded: " ++ path))
      | some bytes =>
        match ext.midiBuilderFromBytes nodeId bytes with
        | .error e => .error e
        | .ok parsed =>
          match loadMidiChannels ext st channels ⟨parsed, []⟩ with
          | .error e => .error e
          | .ok (eventChannels, builder) =>
            match ext.midiBuild builder with
            | .error e => .error e
            | .ok rep => .ok (eventChannels, Node.midi rep)
  | .EventReceiver nodeId source =>
    match load ext st source with
    | .error e => .error e
    | .ok (channels, child) =>
      let (channel, wrapped) := AsyncEventReceiver.new nodeId child
      .ok (channels ++ [channel], wrapped)
  | .FontRanges nodeId ranges =>
    match loadFontRanges ext st ranges (FontBuilder.new nodeId) with
    | .error e => .error e
    | .ok (allChannels, builder) => .ok (allChannels, builder.build)
  | .FontSf2FilePath nodeId path instrumentIndex =>
    match st.sf2Assets path with
    | none => .error (.User ("Soundfont file not loaded: " ++ path))
    | some bytes =>
      match ext.soundfontFromBytes nodeId bytes instrumentIndex with
      | .error e => .error e
      | .ok rep => .ok ([], Node.sf2 rep)
  | .SquareWave nodeId amplitude dutyCycle =>
    .ok ([], Node.squareWave nodeId amplitude dutyCycle)
  | .TriangleWave nodeId amplitude =>
    .ok ([], Node.triangleWave nodeId amplitude)
  | .SawtoothWave nodeId amplitude =>
    .ok ([], Node.sawtoothWave nodeId amplitude)
  | .LfsrNoise nodeId amplitude insideFeedback noteFor16Shifts =>
    .ok ([], Node.lfsrNoise nodeId amplitude insideFeedback noteFor16Shifts)
  | .SampleFilePath nodeId path baseNote looping =>
    match st.loopAssets path with
    | none => .error (.User ("Loop file not loaded: " ++ path))
    | some bytes =>
      match ext.wavFromBytes bytes baseNote
          (looping.map LoopRange.fromConfig) nodeId with
      | .error e => .error e
      | .ok rep => .ok ([], Node.sample rep)
  | .OneShotFilePath nodeId path =>
    match st.oneShotAssets path with
    | none => .error (.User ("One shot file not loaded: " ++ path))
    | some bytes =>
      match ext.oneShotFromBytes bytes nodeId with
      | .error e => .error e
      | .ok rep => .ok ([], Node.oneShot rep)
  | .Envelope nodeId attackTime decayTime sustainMultiplier releaseTime
      source =>
    match load ext st source with
    | .error e => .error e
    | .ok (channels, child) =>
      .ok (channels, Node.envelope nodeId attackTime decayTime
        sustainMultiplier releaseTime child)
  | .Combiner nodeId sources =>
    match loadList ext st sources with
    | .error e => .error e
    | .ok (eventChannels, innerSources) =>
      .ok (eventChannels, Node.combiner nodeId innerSources)
  | .Mixer nodeId balance source0 source1 =>
    match load ext st source0 with
    | .error e => .error e
    | .ok (channels, child0) =>
      match load ext st source1 with
      | .error e => .error e
      | .ok (moreChannels, child1) =>
        .ok (channels ++ moreChannels,
          Node.mixer nodeId balance child0 child1)
  | .Fader nodeId initialVolume source =>
    match load ext st source with
    | .error e => .error e
    | .ok (channels, child) =>
      .ok (channels, Node.fader nodeId initialVolume child)

/-- The `for (channel, source) in channels.iter()` loop of the
`SoundSource::Midi` branch: compiles each mapped channel source in order,
extending the collected channels and adding each compiled font to the
builder. -/
def loadMidiChannels (ext : Ext) (st : Stores) :
    List (Nat × SoundSource) → MidiBuilder →
    Except Err (List EventChannel × MidiBuilder)
  | [], b => .ok ([], b)
  | (channel, source) :: rest, b =>
    match load ext st source with
    | .error e => .error e
    | .ok (channels, font) =>
      match loadMidiChannels ext st rest
          (b.addChannelSource channel font) with
      | .error e => .error e
      | .ok (more, b') => .ok (channels ++ more, b')

/-- The `for range in ranges` loop of the `FontSource::Ranges` branch:
compiles each range source in order and adds it to the font builder under
its inclusive note range. -/
def loadFontRanges (ext : Ext) (st : Stores) :
    List (Nat × Nat × SoundSource) → FontBuilder →
    Except Err (List EventChannel × FontBuilder)
  | [], fb => .ok ([], fb)
  | (lower, upper, source) :: rest, fb =>
    match load ext st source with
    | .error e => .error e
    | .ok (channels, node) =>
      match ext.fontAddRange fb (NoteRange.newInclusiveRange lower upper)
          node with
      | .error e => .error e
      | .ok fb' =>
        match loadFontRanges ext st rest fb' with
        | .error e => .error e
        | .ok (more, fb'') => .ok (channels ++ more, fb'')

/-- The `for source in sources.iter()` loop of the `SoundSource::Combiner`
branch: compiles each child in order, concatenating channel collections
and collecting the compiled children. -/
def loadList (ext : Ext) (st : Stores) :
    List SoundSource → Except Err (List EventChannel × List Node)
  | [] => .ok ([], [])
  | source :: rest =>
    match load ext st source with
    | .error e => .error e
    | .ok (channels, node) =>
      match loadList ext st rest with
      | .error e => .error e
      | .ok (more, nodes) => .ok (channels ++ more, node :: nodes)

end

mutual

/-- Number of event-receiver nodes in a Source Description tree. -/
def countEventReceivers : SoundSource → Nat
  | .Midi _ _ channels => countEventReceiversChannels channels
  | .EventReceiver _ source => countEventReceivers source + 1
  | .FontRanges _ ranges => countEventReceiversRanges ranges
  | .FontSf2FilePath _ _ _ => 0
  | .SquareWave _ _ _ => 0
  | .TriangleWave _ _ => 0
  | .SawtoothWave _ _ => 0
  | .LfsrNoise _ _ _ _ => 0
  | .SampleFilePath _ _ _ _ => 0
  | .OneShotFilePath _ _ => 0
  | .Envelope _ _ _ _ _ source => countEventReceivers source
  | .Combiner _ sources => countEventReceiversList sources
  | .Mixer _ _ source0 source1 =>
      countEventReceivers source0 + countEventReceivers source1
  | .Fader _ _ source => countEventReceivers source

/-- Event-receiver count over a MIDI channel map. -/
def countEventReceiversChannels : List (Nat × SoundSource) → Nat
  | [] => 0
  | (_, source) :: rest =>
      countEventReceivers source + countEventReceiversChannels rest

/-- Event-receiver count over a font range list. -/
def countEventReceiversRanges : List (Nat × Nat × SoundSource) → Nat
  | [] => 0
  | (_, _, source) :: rest =>
      countEventReceivers source + countEventReceiversRanges rest

/-- Event-receiver count over a child list. -/
def countEventReceiversList : List SoundSource → Nat
  | [] => 0
  | source :: rest => countEventReceivers source + countEventReceiversList rest

end

mutual

/-- Number of MIDI-sequence nodes in a Source Description tree. -/
def countMidiNodes : SoundSource → Nat
  | .Midi _ _ channels => countMidiNodesChannels channels + 1
  | .EventReceiver _ source => countMidiNodes source
  | .FontRanges _ ranges => countMidiNodesRanges ranges
  | .FontSf2FilePath _ _ _ => 0
  | .SquareWave _ _ _ => 0
  | .TriangleWave _ _ => 0
  | .SawtoothWave _ _ => 0
  | .LfsrNoise _ _ _ _ => 0
  | .SampleFilePath _ _ _ _ => 0
  | .OneShotFilePath _ _ => 0
  | .Envelope _ _ _ _ _ source => countMidiNodes source
  | .Combiner _ sources => countMidiNodesList sources
  | .Mixer _ _ source0 source1 => countMidiNodes source0 + countMidiNodes source1
  | .Fader _ _ source => countMidiNodes source

/-- MIDI-sequence node count over a MIDI channel map. -/
def countMidiNodesChannels : List (Nat × SoundSource) → Nat
  | [] => 0
  | (_, source) :: rest => countMidiNodes source + countMidiNodesChannels rest

/-- MIDI-sequence node count over a font range list. -/
def countMidiNodesRanges : List (Nat × Nat × SoundSource) → Nat
  | [] => 0
  | (_, _, source) :: rest => countMidiNodes source + countMidiNodesRanges rest

/-- MIDI-sequence node count over a child list. -/
def countMidiNodesList : List SoundSource → Nat
  | [] => 0
  | source :: rest => countMidiNodes source + countMidiNodesList rest

end

mutual

/-- True when the Source Description tree contains no file-backed leaf
(no MIDI sequence, no soundfont file, no looped sample file, no one-shot
file). -/
def hasNoFileLeaves : SoundSource → Bool
  | .Midi _ _ _ => false
  | .EventReceiver _ source => hasNoFileLeaves source
  | .FontRanges _ ranges => hasNoFileLeavesRanges ranges
  | .FontSf2FilePath _ _ _ => false
  | .SquareWave _ _ _ => true
  | .TriangleWave _ _ => true
  | .SawtoothWave _ _ => true
  | .LfsrNoise _ _ _ _ => true
  | .SampleFilePath _ _ _ _ => false
  | .OneShotFilePath _ _ => false
  | .Envelope _ _ _ _ _ source => hasNoFileLeaves source
  | .Combiner _ sources => hasNoFileLeavesList sources
  | .Mixer _ _ source0 source1 =>
      hasNoFileLeaves source0 && hasNoFileLeaves source1
  | .Fader _ _ source => hasNoFileLeaves source

/-- File-leaf freedom over a font range list. -/
def hasNoFileLeavesRanges : List (Nat × Nat × SoundSource) → Bool
  | [] => true
  | (_, _, source) :: rest =>
      hasNoFileLeaves source && hasNoFileLeavesRanges rest

/-- File-leaf freedom over a child list. -/
def hasNoFileLeavesList : List SoundSource → Bool
  | [] => true
  | source :: rest => hasNoFileLeaves source && hasNoFileLeavesList rest

end

mutual

/-- True when the Source Description tree contains a file-backed leaf
whose path the given stores cannot resolve. -/
def hasUnresolvedLeaf (st : Stores) : SoundSource → Bool
  | .Midi _ source channels =>
    (match source with
      | .FilePath path => (st.midiAssets path).isNone)
      || hasUnresolvedLeafChannels st channels
  | .EventReceiver _ source => hasUnresolvedLeaf st source
  | .FontRanges _ ranges => hasUnresolvedLeafRanges st ranges
  | .FontSf2FilePath _ path _ => (st.sf2Assets path).isNone
  | .SquareWave _ _ _ => false
  | .TriangleWave _ _ => false
  | .SawtoothWave _ _ => false
  | .LfsrNoise _ _ _ _ => false
  | .SampleFilePath _ path _ _ => (st.loopAssets path).isNone
  | .OneShotFilePath _ path => (st.oneShotAssets path).isNone
  | .Envelope _ _ _ _ _ source => hasUnresolvedLeaf st source
  | .Combiner _ sources => hasUnresolvedLeafList st sources
  | .Mixer _ _ source0 source1 =>
      hasUnresolvedLeaf st source0 || hasUnresolvedLeaf st source1
  | .Fader _ _ source => hasUnresolvedLeaf st source

/-- Unresolved-leaf search over a MIDI channel map. -/
def hasUnresolvedLeafChannels (st : Stores) :
    List (Nat × SoundSource) → Bool
  | [] => false
  | (_, source) :: rest =>
      hasUnresolvedLeaf st source || hasUnresolvedLeafChannels st rest

/-- Unresolved-leaf search over a font range list. -/
def hasUnresolvedLeafRanges (st : Stores) :
    List (Nat × Nat × SoundSource) → Bool
  | [] => false
  | (_, _, source) :: rest =>
      hasUnresolvedLeaf st source || hasUnresolvedLeafRanges st rest

/-- Unresolved-leaf search over a child list. -/
def hasUnresolvedLeafList (st : Stores) : List SoundSource → Bool
  | [] => false
  | source :: rest =>
      hasUnresolvedLeaf st source || hasUnresolvedLeafList st rest

end

/-- The immediate child Source Descriptions of a Source Description: the
sources on which `load` recurses one level down. -/
def childSources : SoundSource → List SoundSource
  | .Midi _ _ channels => channels.map Prod.snd
  | .EventReceiver _ source => [source]
  | .FontRanges _ ranges => ranges.map fun r => r.2.2
  | .FontSf2FilePath _ _ _ => []
  | .SquareWave _ _ _ => []
  | .TriangleWave _ _ => []
  | .SawtoothWave _ _ => []
  | .LfsrNoise _ _ _ _ => []
  | .SampleFilePath _ _ _ _ => []
  | .OneShotFilePath _ _ => []
  | .Envelope _ _ _ _ _ source => [source]
  | .Combiner _ sources => sources
  | .Mixer _ _ source0 source1 => [source0, source1]
  | .Fader _ _ source => [source]

/-- External-constructor oracles in which every construction succeeds,
returning trivial representations; used to instantiate theorems on
concrete inputs. -/
def okExt : Ext where
  midiBuilderFromBytes := fun _ _ => .ok 0
  midiBuild := fun _ => .ok 0
  soundfontFromBytes := fun _ _ _ => .ok 0
  wavFromBytes := fun _ _ _ _ => .ok 0
  oneShotFromBytes := fun _ _ => .ok 0
  fontAddRange := fun fb nr node =>
    .ok { fb with ranges := fb.ranges ++ [(nr, node)] }

/-- Stores in which no asset is loaded. -/
def emptyStores : Stores where
  midiAssets := fun _ => none
  sf2Assets := fun _ => none
  loopAssets := fun _ => none
  oneShotAssets := fun _ => none

/-- Stores in which every asset path resolves to an empty byte buffer. -/
def fullStores : Stores where
  midiAssets := fun _ => some []
  sf2Assets := fun _ => some []
  loopAssets := fun _ => some []
  oneShotAssets := fun _ => some []


mutual

theorem load_len (ext : Ext) (st : Stores) (s : SoundSource) :
    ∀ (ch : List EventChannel) (n : Node),
      load ext st s = .ok (ch, n) → ch.length = countEventReceivers s :=
  match s with
  | .Midi nodeId (.FilePath path) channels => by
    intro ch n h
    simp only [load] at h
    repeat' split at h
    all_goals cases h
    simp only [countEventReceivers]
    exact loadMidiChannels_len _ _ _ _ _ _ (by assumption)
  | .EventReceiver nodeId source => by
    intro ch n h
    simp only [load, AsyncEventReceiver.new] at h
    repeat' split at h
    all_goals cases h
    simp only [countEventReceivers, List.length_append, List.length_cons,
      List.length_nil]
    have := load_len ext st source _ _ (by assumption)
    omega
  | .FontRanges nodeId ranges => by
    intro ch n h
    simp only [load] at h
    repeat' split at h
    all_goals cases h
    simp only [countEventReceivers]
    exact loadFontRanges_len _ _ _ _ _ _ (by assumption)
  | .FontSf2FilePath nodeId path instrumentIndex => by
    intro ch n h
    simp only [load] at h
    repeat' split at h
    all_goals cases h
    simp [countEventReceivers]
  | .SquareWave nodeId amplitude dutyCycle => by
    intro ch n h
    simp only [load] at h
    cases h
    simp [countEventReceivers]
  | .TriangleWave nodeId amplitude => by
    intro ch n h
    simp only [load] at h
    cases h
    simp [countEventReceivers]
  | .SawtoothWave nodeId amplitude => by
    intro ch n h
    simp only [load] at h
    cases h
    simp [countEventReceivers]
  | .LfsrNoise nodeId amplitude insideFeedback noteFor16Shifts => by
    intro ch n h
    simp only [load] at h
    cases h
    simp [countEventReceivers]
  | .SampleFilePath nodeId path baseNote looping => by
    intro ch n h
    simp only [load] at h
    repeat' split at h
    all_goals cases h
    simp [countEventReceivers]
  | .OneShotFilePath nodeId path => by
    intro ch n h
    simp only [load] at h
    repeat' split at h
    all_goals cases h
    simp [countEventReceivers]
  | .Envelope nodeId a d su r source => by
    intro ch n h
    simp only [load] at h
    repeat' split at h
    all_goals cases h
    simp only [countEventReceivers]
    exact load_len ext st source _ _ (by assumption)
  | .Combiner nodeId sources => by
    intro ch n h
    simp only [load] at h
    repeat' split at h
    all_goals cases h
    simp only [countEventReceivers]
    exact loadList_len _ _ _ _ _ (by assumption)
  | .Mixer nodeId balance source0 source1 => by
    intro ch n h
    simp only [load] at h
    repeat' split at h
    all_goals cases h
    simp only [countEventReceivers, List.length_append]
    have h0 := load_len ext st source0 _ _ (by assumption)
    have h1 := load_len ext st source1 _ _ (by assumption)
    omega
  | .Fader nodeId initialVolume source => by
    intro ch n h
    simp only [load] at h
    repeat' split at h
    all_goals cases h
    simp only [countEventReceivers]
    exact load_len ext st source _ _ (by assumption)

theorem loadList_len (ext : Ext) (st : Stores) (l : List SoundSource) :
    ∀ (ch : List EventChannel) (ns : List Node),
      loadList ext st l = .ok (ch, ns) →
        ch.length = countEventReceiversList l :=
  match l with
  | [] => by
    intro ch ns h
    simp only [loadList] at h
    cases h
    simp [countEventReceiversList]
  | source :: rest => by
    intro ch ns h
    simp only [loadList] at h
    repeat' split at h
    all_goals cases h
    simp only [countEventReceiversList, List.length_append]
    have h1 := load_len ext st source _ _ (by assumption)
    have h2 := loadList_len ext st rest _ _ (by assumption)
    omega

theorem loadFontRanges_len (ext : Ext) (st : Stores)
    (l : List (Nat × Nat × SoundSource)) :
    ∀ (fb : FontBuilder) (ch : List EventChannel) (fb2 : FontBuilder),
      loadFontRanges ext st l fb = .ok (ch, fb2) →
        ch.length = countEventReceiversRanges l :=
  match l with
  | [] => by
    intro fb ch fb2 h
    simp only [loadFontRanges] at h
    cases h
    simp [countEventReceiversRanges]
  | (lower, upper, source) :: rest => by
    intro fb ch fb2 h
    simp only [loadFontRanges] at h
    repeat' split at h
    all_goals cases h
    simp only [countEventReceiversRanges, List.length_append]
    have h1 := load_len ext st source _ _ (by assumption)
    have h2 := loadFontRanges_len ext st rest _ _ _ (by assumption)
    omega

theorem loadMidiChannels_len (ext : Ext) (st : Stores)
    (l : List (Nat × SoundSource)) :
    ∀ (b : MidiBuilder) (ch : List EventChannel) (b2 : MidiBuilder),
      loadMidiChannels ext st l b = .ok (ch, b2) →
        ch.length = countEventReceiversChannels l :=
  match l with
  | [] => by
    intro b ch b2 h
    simp only [loadMidiChannels] at h
    cases h
    simp [countEventReceiversChannels]
  | (channel, source) :: rest => by
    intro b ch b2 h
    simp only [loadMidiChannels] at h
    repeat' split at h
    all_goals cases h
    simp only [countEventReceiversChannels, List.length_append]
    have h1 := load_len ext st source _ _ (by assumption)
    have h2 := loadMidiChannels_len ext st rest _ _ _ (by assumption)
    omega

end


mutual

theorem load_ok_resolved (ext : Ext) (st : Stores) (s : SoundSource) :
    ∀ (ch : List EventChannel) (n : Node),
      load ext st s = .ok (ch, n) → hasUnresolvedLeaf st s = false :=
  match s with
  | .Midi nodeId (.FilePath path) channels => by
    intro ch n h
    simp only [load] at h
    cases hm : st.midiAssets path with
    | none => rw [hm] at h; cases h
    | some bytes =>
      rw [hm] at h
      repeat' split at h
      all_goals cases h
      have hrec := loadMidiChannels_resolved ext st channels _ _ _
        (by assumption)
      simp [hasUnresolvedLeaf, hm, hrec]
  | .EventReceiver nodeId source => by
    intro ch n h
    simp only [load, AsyncEventReceiver.new] at h
    repeat' split at h
    all_goals cases h
    have hrec := load_ok_resolved ext st source _ _ (by assumption)
    simp [hasUnresolvedLeaf, hrec]
  | .FontRanges nodeId ranges => by
    intro ch n h
    simp only [load] at h
    repeat' split at h
    all_goals cases h
    have hrec := loadFontRanges_resolved ext st ranges _ _ _ (by assumption)
    simp [hasUnresolvedLeaf, hrec]
  | .FontSf2FilePath nodeId path instrumentIndex => by
    intro ch n h
    simp only [load] at h
    cases hm : st.sf2Assets path with
    | none => rw [hm] at h; cases h
    | some bytes =>
      rw [hm] at h
      repeat' split at h
      all_goals cases h
      simp [hasUnresolvedLeaf, hm]
  | .SquareWave nodeId amplitude dutyCycle => by
    intro ch n h
    simp [hasUnresolvedLeaf]
  | .TriangleWave nodeId amplitude => by
    intro ch n h
    simp [hasUnresolvedLeaf]
  | .SawtoothWave nodeId amplitude => by
    intro ch n h
    simp [hasUnresolvedLeaf]
  | .LfsrNoise nodeId amplitude insideFeedback noteFor16Shifts => by
    intro ch n h
    simp [hasUnresolvedLeaf]
  | .SampleFilePath nodeId path baseNote looping => by
    intro ch n h
    simp only [load] at h
    cases hm : st.loopAssets path with
    | none => rw [hm] at h; cases h
    | some bytes =>
      rw [hm] at h
      repeat' split at h
      all_goals cases h
      simp [hasUnresolvedLeaf, hm]
  | .OneShotFilePath nodeId path => by
    intro ch n h
    simp only [load] at h
    cases hm : st.oneShotAssets path with
    | none => rw [hm] at h; cases h
    | some bytes =>
      rw [hm] at h
      repeat' split at h
      all_goals cases h
      simp [hasUnresolvedLeaf, hm]
  | .Envelope nodeId a d su r source => by
    intro ch n h
    simp only [load] at h
    repeat' split at h
    all_goals cases h
    have hrec := load_ok_resolved ext st source _ _ (by assumption)
    simp [hasUnresolvedLeaf, hrec]
  | .Combiner nodeId sources => by
    intro ch n h
    simp only [load] at h
    repeat' split at h
    all_goals cases h
    have hrec := loadList_resolved ext st sources _ _ (by assumption)
    simp [hasUnresolvedLeaf, hrec]
  | .Mixer nodeId balance source0 source1 => by
    intro ch n h
    simp only [load] at h
    repeat' split at h
    all_goals cases h
    have h0 := load_ok_resolved ext st source0 _ _ (by assumption)
    have h1 := load_ok_resolved ext st source1 _ _ (by assumption)
    simp [hasUnresolvedLeaf, h0, h1]
  | .Fader nodeId initialVolume source => by
    intro ch n h
    simp only [load] at h
    repeat' split at h
    all_goals cases h
    have hrec := load_ok_resolved ext st source _ _ (by assumption)
    simp [hasUnresolvedLeaf, hrec]

theorem loadList_resolved (ext : Ext) (st : Stores) (l : List SoundSource) :
    ∀ (ch : List EventChannel) (ns : List Node),
      loadList ext st l = .ok (ch, ns) →
        hasUnresolvedLeafList st l = false :=
  match l with
  | [] => by
    intro ch ns h
    simp [hasUnresolvedLeafList]
  | source :: rest => by
    intro ch ns h
    simp only [loadList] at h
    repeat' split at h
    all_goals cases h
    have h1 := load_ok_resolved ext st source _ _ (by assumption)
    have h2 := loadList_resolved ext st rest _ _ (by assumption)
    simp [hasUnresolvedLeafList, h1, h2]

theorem loadFontRanges_resolved (ext : Ext) (st : Stores)
    (l : List (Nat × Nat × SoundSource)) :
    ∀ (fb : FontBuilder) (ch : List EventChannel) (fb2 : FontBuilder),
      loadFontRanges ext st l fb = .ok (ch, fb2) →
        hasUnresolvedLeafRanges st l = false :=
  match l with
  | [] => by
    intro fb ch fb2 h
    simp [hasUnresolvedLeafRanges]
  | (lower, upper, source) :: rest => by
    intro fb ch fb2 h
    simp only [loadFontRanges] at h
    repeat' split at h
    all_goals cases h
    have h1 := load_ok_resolved ext st source _ _ (by assumption)
    have h2 := loadFontRanges_resolved ext st rest _ _ _ (by assumption)
    simp [hasUnresolvedLeafRanges, h1, h2]

theorem loadMidiChannels_resolved (ext : Ext) (st : Stores)
    (l : List (Nat × SoundSource)) :
    ∀ (b : MidiBuilder) (ch : List EventChannel) (b2 : MidiBuilder),
      loadMidiChannels ext st l b = .ok (ch, b2) →
        hasUnresolvedLeafChannels st l = false :=
  match l with
  | [] => by
    intro b ch b2 h
    simp [hasUnresolvedLeafChannels]
  | (channel, source) :: rest => by
    intro b ch b2 h
    simp only [loadMidiChannels] at h
    repeat' split at h
    all_goals cases h
    have h1 := load_ok_resolved ext st source _ _ (by assumption)
    have h2 := loadMidiChannels_resolved ext st rest _ _ _ (by assumption)
    simp [hasUnresolvedLeafChannels, h1, h2]

end


mutual

theorem load_stores_irrel (ext : Ext) (st st2 : Stores) (s : SoundSource) :
    hasNoFileLeaves s = true → load ext st2 s = load ext st s :=
  match s with
  | .Midi nodeId (.FilePath path) channels => by
    intro hnf
    simp [hasNoFileLeaves] at hnf
  | .EventReceiver nodeId source => by
    intro hnf
    simp only [hasNoFileLeaves] at hnf
    simp only [load, load_stores_irrel ext st st2 source hnf]
  | .FontRanges nodeId ranges => by
    intro hnf
    simp only [hasNoFileLeaves] at hnf
    simp only [load, loadFontRanges_stores_irrel ext st st2 ranges hnf]
  | .FontSf2FilePath nodeId path instrumentIndex => by
    intro hnf
    simp [hasNoFileLeaves] at hnf
  | .SquareWave nodeId amplitude dutyCycle => fun _ => rfl
  | .TriangleWave nodeId amplitude => fun _ => rfl
  | .SawtoothWave nodeId amplitude => fun _ => rfl
  | .LfsrNoise nodeId amplitude insideFeedback noteFor16Shifts =>
    fun _ => rfl
  | .SampleFilePath nodeId path baseNote looping => by
    intro hnf
    simp [hasNoFileLeaves] at hnf
  | .OneShotFilePath nodeId path => by
    intro hnf
    simp [hasNoFileLeaves] at hnf
  | .Envelope nodeId a d su r source => by
    intro hnf
    simp only [hasNoFileLeaves] at hnf
    simp only [load, load_stores_irrel ext st st2 source hnf]
  | .Combiner nodeId sources => by
    intro hnf
    simp only [hasNoFileLeaves] at hnf
    simp only [load, loadList_stores_irrel ext st st2 sources hnf]
  | .Mixer nodeId balance source0 source1 => by
    intro hnf
    simp only [hasNoFileLeaves, Bool.and_eq_true] at hnf
    simp only [load, load_stores_irrel ext st st2 source0 hnf.1,
      load_stores_irrel ext st st2 source1 hnf.2]
  | .Fader nodeId initialVolume source => by
    intro hnf
    simp only [hasNoFileLeaves] at hnf
    simp only [load, load_stores_irrel ext st st2 source hnf]

theorem loadList_stores_irrel (ext : Ext) (st st2 : Stores)
    (l : List SoundSource) :
    hasNoFileLeavesList l = true → loadList ext st2 l = loadList ext st l :=
  match l with
  | [] => fun _ => rfl
  | source :: rest => by
    intro hnf
    simp only [hasNoFileLeavesList, Bool.and_eq_true] at hnf
    simp only [loadList, load_stores_irrel ext st st2 source hnf.1,
      loadList_stores_irrel ext st st2 rest hnf.2]

theorem loadFontRanges_stores_irrel (ext : Ext) (st st2 : Stores)
    (l : List (Nat × Nat × SoundSource)) :
    hasNoFileLeavesRanges l = true →
      ∀ fb, loadFontRanges ext st2 l fb = loadFontRanges ext st l fb :=
  match l with
  | [] => fun _ _ => rfl
  | (lower, upper, source) :: rest => by
    intro hnf fb
    simp only [hasNoFileLeavesRanges, Bool.and_eq_true] at hnf
    simp only [loadFontRanges, load_stores_irrel ext st st2 source hnf.1,
      loadFontRanges_stores_irrel ext st st2 rest hnf.2]

end

mutual

theorem load_noFile_ok (ext : Ext) (st : Stores)
    (haf : ∀ fb nr nd, ∃ fb2, ext.fontAddRange fb nr nd = .ok fb2)
    (s : SoundSource) :
    hasNoFileLeaves s = true → ∃ r, load ext st s = .ok r :=
  match s with
  | .Midi nodeId (.FilePath path) channels => by
    intro hnf
    simp [hasNoFileLeaves] at hnf
  | .EventReceiver nodeId source => by
    intro hnf
    simp only [hasNoFileLeaves] at hnf
    obtain ⟨⟨ch, nd⟩, hr⟩ := load_noFile_ok ext st haf source hnf
    exact ⟨_, by simp only [load, hr, AsyncEventReceiver.new]; rfl⟩
  | .FontRanges nodeId ranges => by
    intro hnf
    simp only [hasNoFileLeaves] at hnf
    obtain ⟨⟨ch, fb2⟩, hr⟩ :=
      loadFontRanges_noFile_ok ext st haf ranges hnf (FontBuilder.new nodeId)
    exact ⟨_, by simp only [load, hr]; rfl⟩
  | .FontSf2FilePath nodeId path instrumentIndex => by
    intro hnf
    simp [hasNoFileLeaves] at hnf
  | .SquareWave nodeId amplitude dutyCycle => fun _ => ⟨_, rfl⟩
  | .TriangleWave nodeId amplitude => fun _ => ⟨_, rfl⟩
  | .SawtoothWave nodeId amplitude => fun _ => ⟨_, rfl⟩
  | .LfsrNoise nodeId amplitude insideFeedback noteFor16Shifts =>
    fun _ => ⟨_, rfl⟩
  | .SampleFilePath nodeId path baseNote looping => by
    intro hnf
    simp [hasNoFileLeaves] at hnf
  | .OneShotFilePath nodeId path => by
    intro hnf
    simp [hasNoFileLeaves] at hnf
  | .Envelope nodeId a d su r source => by
    intro hnf
    simp only [hasNoFileLeaves] at hnf
    obtain ⟨⟨ch, nd⟩, hr⟩ := load_noFile_ok ext st haf source hnf
    exact ⟨_, by simp only [load, hr]; rfl⟩
  | .Combiner nodeId sources => by
    intro hnf
    simp only [hasNoFileLeaves] at hnf
    obtain ⟨⟨ch, ns⟩, hr⟩ := loadList_noFile_ok ext st haf sources hnf
    exact ⟨_, by simp only [load, hr]; rfl⟩
  | .Mixer nodeId balance source0 source1 => by
    intro hnf
    simp only [hasNoFileLeaves, Bool.and_eq_true] at hnf
    obtain ⟨⟨ch0, n0⟩, h0⟩ := load_noFile_ok ext st haf source0 hnf.1
    obtain ⟨⟨ch1, n1⟩, h1⟩ := load_noFile_ok ext st haf source1 hnf.2
    exact ⟨_, by simp only [load, h0, h1]; rfl⟩
  | .Fader nodeId initialVolume source => by
    intro hnf
    simp only [hasNoFileLeaves] at hnf
    obtain ⟨⟨ch, nd⟩, hr⟩ := load_noFile_ok ext st haf source hnf
    exact ⟨_, by simp only [load, hr]; rfl⟩

theorem loadList_noFile_ok (ext : Ext) (st : Stores)
    (haf : ∀ fb nr nd, ∃ fb2, ext.fontAddRange fb nr nd = .ok fb2)
    (l : List SoundSource) :
    hasNoFileLeavesList l = true → ∃ r, loadList ext st l = .ok r :=
  match l with
  | [] => fun _ => ⟨_, rfl⟩
  | source :: rest => by
    intro hnf
    simp only [hasNoFileLeavesList, Bool.and_eq_true] at hnf
    obtain ⟨⟨ch, nd⟩, h1⟩ := load_noFile_ok ext st haf source hnf.1
    obtain ⟨⟨more, ns⟩, h2⟩ := loadList_noFile_ok ext st haf rest hnf.2
    exact ⟨_, by simp only [loadList, h1, h2]; rfl⟩

theorem loadFontRanges_noFile_ok (ext : Ext) (st : Stores)
    (haf : ∀ fb nr nd, ∃ fb2, ext.fontAddRange fb nr nd = .ok fb2)
    (l : List (Nat × Nat × SoundSource)) :
    hasNoFileLeavesRanges l = true →
      ∀ fb, ∃ r, loadFontRanges ext st l fb = .ok r :=
  match l with
  | [] => fun _ _ => ⟨_, rfl⟩
  | (lower, upper, source) :: rest => by
    intro hnf fb
    simp only [hasNoFileLeavesRanges, Bool.and_eq_true] at hnf
    obtain ⟨⟨ch, nd⟩, h1⟩ := load_noFile_ok ext st haf source hnf.1
    obtain ⟨fb2, h2⟩ := haf fb (NoteRange.newInclusiveRange lower upper) nd
    obtain ⟨⟨more, fb3⟩, h3⟩ :=
      loadFontRanges_noFile_ok ext st haf rest hnf.2 fb2
    exact ⟨_, by simp only [loadFontRanges, h1, h2, h3]; rfl⟩

end


mutual

theorem load_ok_children (ext : Ext) (st : Stores) (s : SoundSource) :
    ∀ (ch : List EventChannel) (n : Node),
      load ext st s = .ok (ch, n) →
        ∀ c ∈ childSources s, ∃ r, load ext st c = .ok r :=
  match s with
  | .Midi nodeId (.FilePath path) channels => by
    intro ch n h c hc
    simp only [childSources, List.mem_map] at hc
    obtain ⟨⟨chn, src⟩, hmem, rfl⟩ := hc
    simp only [load] at h
    repeat' split at h
    all_goals cases h
    exact loadMidiChannels_children ext st channels _ _ _ (by assumption)
      _ hmem
  | .EventReceiver nodeId source => by
    intro ch n h c hc
    simp only [childSources, List.mem_singleton] at hc
    subst hc
    simp only [load, AsyncEventReceiver.new] at h
    repeat' split at h
    all_goals cases h
    exact ⟨_, by assumption⟩
  | .FontRanges nodeId ranges => by
    intro ch n h c hc
    simp only [childSources, List.mem_map] at hc
    obtain ⟨⟨lower, upper, src⟩, hmem, rfl⟩ := hc
    simp only [load] at h
    repeat' split at h
    all_goals cases h
    exact loadFontRanges_children ext st ranges _ _ _ (by assumption) _ hmem
  | .FontSf2FilePath nodeId path instrumentIndex => by
    intro ch n h c hc
    simp [childSources] at hc
  | .SquareWave nodeId amplitude dutyCycle => by
    intro ch n h c hc
    simp [childSources] at hc
  | .TriangleWave nodeId amplitude => by
    intro ch n h c hc
    simp [childSources] at hc
  | .SawtoothWave nodeId amplitude => by
    intro ch n h c hc
    simp [childSources] at hc
  | .LfsrNoise nodeId amplitude insideFeedback noteFor16Shifts => by
    intro ch n h c hc
    simp [childSources] at hc
  | .SampleFilePath nodeId path baseNote looping => by
    intro ch n h c hc
    simp [childSources] at hc
  | .OneShotFilePath nodeId path => by
    intro ch n h c hc
    simp [childSources] at hc
  | .Envelope nodeId a d su r source => by
    intro ch n h c hc
    simp only [childSources, List.mem_singleton] at hc
    subst hc
    simp only [load] at h
    repeat' split at h
    all_goals cases h
    exact ⟨_, by assumption⟩
  | .Combiner nodeId sources => by
    intro ch n h c hc
    simp only [childSources] at hc
    simp only [load] at h
    repeat' split at h
    all_goals cases h
    exact loadList_children ext st sources _ _ (by assumption) _ hc
  | .Mixer nodeId balance source0 source1 => by
    intro ch n h c hc
    simp only [load] at h
    repeat' split at h
    all_goals cases h
    simp only [childSources, List.mem_cons, List.mem_singleton] at hc
    rcases hc with rfl | rfl | hc
    · exact ⟨_, by assumption⟩
    · exact ⟨_, by assumption⟩
    · simp at hc
  | .Fader nodeId initialVolume source => by
    intro ch n h c hc
    simp only [childSources, List.mem_singleton] at hc
    subst hc
    simp only [load] at h
    repeat' split at h
    all_goals cases h
    exact ⟨_, by assumption⟩

theorem loadList_children (ext : Ext) (st : Stores) (l : List SoundSource) :
    ∀ (ch : List EventChannel) (ns : List Node),
      loadList ext st l = .ok (ch, ns) →
        ∀ c ∈ l, ∃ r, load ext st c = .ok r :=
  match l with
  | [] => by
    intro ch ns h c hc
    simp at hc
  | source :: rest => by
    intro ch ns h c hc
    simp only [loadList] at h
    repeat' split at h
    all_goals cases h
    rcases List.mem_cons.mp hc with rfl | hc
    · exact ⟨_, by assumption⟩
    · exact loadList_children ext st rest _ _ (by assumption) _ hc

theorem loadFontRanges_children (ext : Ext) (st : Stores)
    (l : List (Nat × Nat × SoundSource)) :
    ∀ (fb : FontBuilder) (ch : List EventChannel) (fb2 : FontBuilder),
      loadFontRanges ext st l fb = .ok (ch, fb2) →
        ∀ p ∈ l, ∃ r, load ext st p.2.2 = .ok r :=
  match l with
  | [] => by
    intro fb ch fb2 h p hp
    simp at hp
  | (lower, upper, source) :: rest => by
    intro fb ch fb2 h p hp
    simp only [loadFontRanges] at h
    repeat' split at h
    all_goals cases h
    rcases List.mem_cons.mp hp with rfl | hp
    · exact ⟨_, by assumption⟩
    · exact loadFontRanges_children ext st rest _ _ _ (by assumption) _ hp

theorem loadMidiChannels_children (ext : Ext) (st : Stores)
    (l : List (Nat × SoundSource)) :
    ∀ (b : MidiBuilder) (ch : List EventChannel) (b2 : MidiBuilder),
      loadMidiChannels ext st l b = .ok (ch, b2) →
        ∀ p ∈ l, ∃ r, load ext st p.2 = .ok r :=
  match l with
  | [] => by
    intro b ch b2 h p hp
    simp at hp
  | (channel, source) :: rest => by
    intro b ch b2 h p hp
    simp only [loadMidiChannels] at h
    repeat' split at h
    all_goals cases h
    rcases List.mem_cons.mp hp with rfl | hp
    · exact ⟨_, by assumption⟩
    · exact loadMidiChannels_children ext st rest _ _ _ (by assumption) _ hp

end

theorem loadList_first_error (ext : Ext) (st : Stores)
    (pre : List SoundSource) :
    ∀ (y : SoundSource) (post : List SoundSource) (e : Err)
      (ch : List EventChannel) (ns : List Node),
      loadList ext st pre = .ok (ch, ns) → load ext st y = .error e →
        loadList ext st (pre ++ y :: post) = .error e :=
  match pre with
  | [] => by
    intro y post e ch ns hpre herr
    simp only [List.nil_append, loadList, herr]
  | source :: rest => by
    intro y post e ch ns hpre herr
    simp only [loadList] at hpre
    cases hload : load ext st source with
    | error e2 => simp only [hload] at hpre; cases hpre
    | ok p =>
      obtain ⟨chans, node⟩ := p
      simp only [hload] at hpre
      cases hrest : loadList ext st rest with
      | error e2 => simp only [hload, hrest] at hpre; cases hpre
      | ok q =>
        obtain ⟨more, nodes⟩ := q
        simp only [List.cons_append, loadList, List.append_eq, hload,
          loadList_first_error ext st rest y post e _ _ hrest herr]


/-- Mirrors `midi_graph::NodeControlEvent` as used in the examples:
the seek-to-anchor-when-ideal request. -/
inductive NodeControlEvent where
  | SeekWhenIdeal (toAnchor : Option Nat)
deriving DecidableEq, Repr

/-- Mirrors `midi_graph::NodeEvent` as used in the examples: a Control
Message addressed to a node identifier. -/
inductive NodeEvent where
  | NodeControl (nodeId : Nat) (event : NodeControlEvent)
deriving DecidableEq, Repr

/-- Modelled from the spec: a Control Channel as a bounded inbound queue
(section 4.6) — delivery into a full or unavailable channel fails; the
channel itself lives in the external crate, only its contract is fixed. -/
structure BoundedChannel where
  capacity : Nat
  available : Bool
  pending : List NodeEvent
deriving DecidableEq, Repr

/-- The two channel-error kinds of the spec: channel full, or channel
unavailable (its owning node was torn down). -/
inductive ChannelError where
  | Full
  | Unavailable
deriving DecidableEq, Repr

/-- Modelled from the spec: `EventChannel::try_send` — a Control Message
either is accepted into the channel or fails synchronously with a
channel-full/unavailable error; the error is returned to the sender,
never swallowed. -/
def trySend (c : BoundedChannel) (m : NodeEvent) :
    Except ChannelError BoundedChannel :=
  if c.available = false then .error .Unavailable
  else if c.capacity ≤ c.pending.length then .error .Full
  else .ok { c with pending := c.pending ++ [m] }

/-- Outcome of one invocation of the sending fragment of the reference
caller: either the send succeeded and the channel advanced, or the caller
aborted the process. -/
inductive CallerOutcome where
  | proceeded (channel : BoundedChannel)
  | aborted (error : ChannelError)
deriving DecidableEq, Repr

/-- Embeds the send fragment of `check_intersections`
(examples/demo.rs lines 166-176): build the `SeekWhenIdeal` control
message for the target node and abort the calling process (Rust `panic`)
whenever `try_send` returns an error. -/
def checkIntersectionsSend (channel : BoundedChannel)
    (nodeId anchor : Nat) : CallerOutcome :=
  match trySend channel
      (.NodeControl nodeId (.SeekWhenIdeal (some anchor))) with
  | .error err => .aborted err
  | .ok c => .proceeded c

/-- Modelled from the spec: the seek-relevant state of a controllable
node — at most one pending seek request, the current anchor position, and
the log of relocations actually performed. -/
structure SeekState where
  pendingSeek : Option Nat
  currentAnchor : Nat
  appliedSeeks : List Nat
deriving DecidableEq, Repr

/-- Modelled from the spec: receiving a seek-to-anchor-when-ideal message
records it as the pending request, overwriting any earlier pending
request (the most recently received one wins; nothing is queued). -/
def receiveSeekWhenIdeal (s : SeekState) (anchor : Nat) : SeekState :=
  { s with pendingSeek := some anchor }

/-- Modelled from the spec: on reaching a safe musical boundary the node
applies the pending relocation, if any, exactly once and clears it. -/
def reachSafeBoundary (s : SeekState) : SeekState :=
  match s.pendingSeek with
  | some a =>
    { pendingSeek := none, currentAnchor := a,
      appliedSeeks := s.appliedSeeks ++ [a] }
  | none => s


/-- Claim C1, corrected: for every Source Description that compiles
successfully, the returned Control Channel collection has exactly one
entry per event-receiver node of the tree. MIDI-sequence nodes contribute
no channel: the `SoundSource::Midi` branch only concatenates the channels
collected from its mapped channel sources. -/
theorem c1_channel_count_eq_receivers (ext : Ext) (st : Stores)
    (s : SoundSource) (ch : List EventChannel) (n : Node)
    (h : load ext st s = .ok (ch, n)) :
    ch.length = countEventReceivers s :=
  load_len ext st s ch n h

/-- Witness for C1: the corrected count theorem evaluated on a concrete
event-receiver description. -/
theorem c1_channel_count_eq_receivers_witness :
    ([⟨5⟩] : List EventChannel).length
      = countEventReceivers (.EventReceiver 5 (.SquareWave 1 2 3)) :=
  c1_channel_count_eq_receivers okExt emptyStores
    (.EventReceiver 5 (.SquareWave 1 2 3)) [⟨5⟩]
    (.asyncEventReceiver 5 (.squareWave 1 2 3)) rfl

/-- Counterexample to C1 as stated: a lone MIDI-sequence node (with its
file resolved and parsed) compiles to an empty channel collection, while
the number of event-receiver nodes plus MIDI-sequence nodes is 1. -/
theorem c1_midi_contributes_no_channel :
    load okExt fullStores (.Midi 7 (.FilePath "m") [])
        = .ok ([], .midi 0)
      ∧ countEventReceivers (.Midi 7 (.FilePath "m") [])
          + countMidiNodes (.Midi 7 (.FilePath "m") []) = 1
      ∧ ([] : List EventChannel).length ≠ 1 := by
  refine ⟨rfl, ?_, by simp⟩
  simp [countEventReceivers, countEventReceiversChannels, countMidiNodes,
    countMidiNodesChannels]

/-- Claim C2: composite descriptions compile children left to right and
return the concatenation of the children's Control Channel collections in
depth-first order; in the [event-receiver A, oscillator B,
event-receiver C] combiner instance, A's channel precedes C's and B
contributes nothing. -/
theorem c2_depth_first_order (ext : Ext) (st : Stores) :
    (∀ (nid idA idB : Nat) (ampB dutyB : F32) (idC : Nat)
        (srcA srcC : SoundSource) (chA chC : List EventChannel)
        (nA nC : Node),
      load ext st srcA = .ok (chA, nA) →
      load ext st srcC = .ok (chC, nC) →
        load ext st (.Combiner nid
            [.EventReceiver idA srcA, .SquareWave idB ampB dutyB,
              .EventReceiver idC srcC])
          = .ok (chA ++ [⟨idA⟩] ++ (chC ++ [⟨idC⟩]),
              .combiner nid [.asyncEventReceiver idA nA,
                .squareWave idB ampB dutyB, .asyncEventReceiver idC nC]))
    ∧ (∀ (src : SoundSource) (rest : List SoundSource)
          (ch : List EventChannel) (nd : Node) (more : List EventChannel)
          (ns : List Node),
        load ext st src = .ok (ch, nd) →
        loadList ext st rest = .ok (more, ns) →
          loadList ext st (src :: rest) = .ok (ch ++ more, nd :: ns))
    ∧ (∀ (nid : Nat) (l : List SoundSource) (ch : List EventChannel)
          (ns : List Node),
        loadList ext st l = .ok (ch, ns) →
          load ext st (.Combiner nid l) = .ok (ch, .combiner nid ns))
    ∧ (∀ (nid : Nat) (bal : F32) (s0 s1 : SoundSource)
          (ch0 : List EventChannel) (n0 : Node)
          (ch1 : List EventChannel) (n1 : Node),
        load ext st s0 = .ok (ch0, n0) → load ext st s1 = .ok (ch1, n1) →
          load ext st (.Mixer nid bal s0 s1)
            = .ok (ch0 ++ ch1, .mixer nid bal n0 n1)) := by
  refine ⟨?_, ?_, ?_, ?_⟩
  · intro nid idA idB ampB dutyB idC srcA srcC chA chC nA nC hA hC
    simp [load, loadList, hA, hC, AsyncEventReceiver.new,
      List.append_assoc]
  · intro src rest ch nd more ns h1 h2
    simp only [loadList, h1, h2]
  · intro nid l ch ns h
    simp only [load, h]
  · intro nid bal s0 s1 ch0 n0 ch1 n1 h0 h1
    simp only [load, h0, h1]

/-- Witness for C2: the combiner conjunct evaluated on a concrete
description with two receivers around a plain oscillator. -/
theorem c2_depth_first_order_witness :
    load okExt emptyStores (.Combiner 0
        [.EventReceiver 1 (.TriangleWave 10 11), .SquareWave 2 20 21,
          .EventReceiver 3 (.SawtoothWave 12 13)])
      = .ok (([] : List EventChannel) ++ [⟨1⟩] ++ (([] : List EventChannel) ++ [⟨3⟩]),
          .combiner 0 [.asyncEventReceiver 1 (.triangleWave 10 11),
            .squareWave 2 20 21,
            .asyncEventReceiver 3 (.sawtoothWave 12 13)]) :=
  (c2_depth_first_order okExt emptyStores).1 0 1 2 20 21 3
    (.TriangleWave 10 11) (.SawtoothWave 12 13) [] [] (.triangleWave 10 11)
    (.sawtoothWave 12 13) rfl rfl

/-- Claim C3: the first error of the recursive walk aborts the whole
compile — a successful compile requires every immediate child to have
compiled, and an error in one child of a combiner or mixer (after
successful earlier siblings) is returned verbatim as the whole result,
with no node or channel collection. -/
theorem c3_first_error_propagates (ext : Ext) (st : Stores) :
    (∀ (s : SoundSource) (ch : List EventChannel) (n : Node),
      load ext st s = .ok (ch, n) →
        ∀ c ∈ childSources s, ∃ r, load ext st c = .ok r)
    ∧ (∀ (nid : Nat) (pre : List SoundSource) (y : SoundSource)
          (post : List SoundSource) (e : Err) (chp : List EventChannel)
          (np : List Node),
        loadList ext st pre = .ok (chp, np) → load ext st y = .error e →
          load ext st (.Combiner nid (pre ++ y :: post)) = .error e)
    ∧ (∀ (nid : Nat) (bal : F32) (s0 s1 : SoundSource) (e : Err),
        load ext st s0 = .error e →
          load ext st (.Mixer nid bal s0 s1) = .error e)
    ∧ (∀ (nid : Nat) (bal : F32) (s0 s1 : SoundSource)
          (ch0 : List EventChannel) (n0 : Node) (e : Err),
        load ext st s0 = .ok (ch0, n0) → load ext st s1 = .error e →
          load ext st (.Mixer nid bal s0 s1) = .error e) := by
  refine ⟨load_ok_children ext st, ?_, ?_, ?_⟩
  · intro nid pre y post e chp np hpre herr
    simp only [load, loadList_first_error ext st pre y post e _ _ hpre herr]
  · intro nid bal s0 s1 e h
    simp only [load, h]
  · intro nid bal s0 s1 ch0 n0 e h0 h1
    simp only [load, h0, h1]

/-- Witness for C3: the combiner first-error conjunct evaluated at a
concrete description whose second child is an unresolved one-shot file. -/
theorem c3_first_error_propagates_witness :
    load okExt emptyStores (.Combiner 0
        ([.SquareWave 1 2 3] ++ .OneShotFilePath 4 "missing" :: [.TriangleWave 9 9]))
      = .error (.User ("One shot file not loaded: " ++ "missing")) :=
  (c3_first_error_propagates okExt emptyStores).2.1 0 [.SquareWave 1 2 3]
    (.OneShotFilePath 4 "missing") [.TriangleWave 9 9] _ []
    [.squareWave 1 2 3] rfl rfl

/-- Claim C4: a Source Description containing an unresolved file-backed
leaf never compiles to a node (some error is returned), and at each of
the four file-backed resolution points the error returned for an
unresolved path is the `Error::User` message naming that path. -/
theorem c4_unresolved_path_error (ext : Ext) (st : Stores) :
    (∀ s, hasUnresolvedLeaf st s = true → ∃ e, load ext st s = .error e)
    ∧ (∀ (nid : Nat) (p : String) (chans : List (Nat × SoundSource)),
        st.midiAssets p = none →
          load ext st (.Midi nid (.FilePath p) chans)
            = .error (.User ("File not loaded: " ++ p)))
    ∧ (∀ (nid : Nat) (p : String) (idx : Nat),
        st.sf2Assets p = none →
          load ext st (.FontSf2FilePath nid p idx)
            = .error (.User ("Soundfont file not loaded: " ++ p)))
    ∧ (∀ (nid : Nat) (p : String) (bn : Nat) (lp : Option LoopConfig),
        st.loopAssets p = none →
          load ext st (.SampleFilePath nid p bn lp)
            = .error (.User ("Loop file not loaded: " ++ p)))
    ∧ (∀ (nid : Nat) (p : String),
        st.oneShotAssets p = none →
          load ext st (.OneShotFilePath nid p)
            = .error (.User ("One shot file not loaded: " ++ p))) := by
  refine ⟨?_, ?_, ?_, ?_, ?_⟩
  · intro s hu
    cases hl : load ext st s with
    | error e => exact ⟨e, rfl⟩
    | ok r =>
      obtain ⟨ch, n⟩ := r
      have hres := load_ok_resolved ext st s ch n hl
      rw [hres] at hu
      cases hu
  · intro nid p chans h
    simp only [load, h]
  · intro nid p idx h
    simp only [load, h]
  · intro nid p bn lp h
    simp only [load, h]
  · intro nid p h
    simp only [load, h]

/-- Witness for C4: the containment conjunct and the one-shot naming
conjunct evaluated on concrete unresolved descriptions. -/
theorem c4_unresolved_path_error_witness :
    (∃ e, load okExt emptyStores
        (.Fader 0 1 (.OneShotFilePath 2 "snd.wav")) = .error e)
      ∧ load okExt emptyStores (.OneShotFilePath 2 "snd.wav")
          = .error (.User ("One shot file not loaded: " ++ "snd.wav")) :=
  ⟨(c4_unresolved_path_error okExt emptyStores).1 _ rfl,
    (c4_unresolved_path_error okExt emptyStores).2.2.2.2 2 "snd.wav" rfl⟩

/-- Claim C5: compiling an event-receiver description compiles the single
child first, wraps it in the adapter node owning a fresh Control Channel,
and appends that channel after all channels collected from the child
subtree. -/
theorem c5_event_receiver_appends_channel (ext : Ext) (st : Stores)
    (nid : Nat) (src : SoundSource) (ch : List EventChannel) (n : Node)
    (h : load ext st src = .ok (ch, n)) :
    load ext st (.EventReceiver nid src)
      = .ok (ch ++ [⟨nid⟩], .asyncEventReceiver nid n) := by
  simp only [load, h, AsyncEventReceiver.new]

/-- Witness for C5: an event receiver wrapping another event receiver;
the inner channel keeps its place before the outer one. -/
theorem c5_event_receiver_appends_channel_witness :
    load okExt emptyStores
        (.EventReceiver 8 (.EventReceiver 5 (.SquareWave 1 2 3)))
      = .ok ([⟨5⟩] ++ [⟨8⟩],
          .asyncEventReceiver 8 (.asyncEventReceiver 5 (.squareWave 1 2 3))) :=
  c5_event_receiver_appends_channel okExt emptyStores 8
    (.EventReceiver 5 (.SquareWave 1 2 3)) [⟨5⟩]
    (.asyncEventReceiver 5 (.squareWave 1 2 3)) rfl

/-- Claim C6: a Source Description with no file-backed leaves compiles
without consulting the asset stores (the result is identical for any two
stores), and succeeds whenever the only fallible non-file construction,
`SoundFontBuilder::add_range`, accepts its declared constants. -/
theorem c6_no_file_leaves (ext : Ext) :
    (∀ (st st2 : Stores) (s : SoundSource), hasNoFileLeaves s = true →
      load ext st s = load ext st2 s)
    ∧ (∀ (st : Stores) (s : SoundSource), hasNoFileLeaves s = true →
        (∀ fb nr nd, ∃ fb2, ext.fontAddRange fb nr nd = .ok fb2) →
          ∃ r, load ext st s = .ok r) :=
  ⟨fun st st2 s h => (load_stores_irrel ext st st2 s h).symm,
    fun st s h haf => load_noFile_ok ext st haf s h⟩

/-- Witness for C6: both conjuncts evaluated on concrete file-free
descriptions, with the always-accepting font oracle. -/
theorem c6_no_file_leaves_witness :
    load okExt emptyStores (.SquareWave 1 2 3)
        = load okExt fullStores (.SquareWave 1 2 3)
      ∧ ∃ r, load okExt emptyStores
          (.Mixer 0 5 (.TriangleWave 1 2)
            (.FontRanges 3 [(0, 10, .SquareWave 4 5 6)])) = .ok r :=
  ⟨(c6_no_file_leaves okExt).1 emptyStores fullStores (.SquareWave 1 2 3)
      rfl,
    (c6_no_file_leaves okExt).2 emptyStores
      (.Mixer 0 5 (.TriangleWave 1 2)
        (.FontRanges 3 [(0, 10, .SquareWave 4 5 6)])) rfl
      (fun fb nr nd => ⟨_, rfl⟩)⟩

/-- Claim C7: sending into an unavailable or full Control Channel fails
with an error that is returned to the sender, and the reference caller
(`check_intersections`) treats any send failure as fatal, aborting the
calling process with that error. -/
theorem c7_send_failure_surfaced (c : BoundedChannel)
    (nodeId anchor : Nat) (m : NodeEvent) :
    (c.available = false →
      trySend c m = .error .Unavailable
        ∧ checkIntersectionsSend c nodeId anchor = .aborted .Unavailable)
    ∧ (c.available = true → c.capacity ≤ c.pending.length →
        trySend c m = .error .Full
          ∧ checkIntersectionsSend c nodeId anchor = .aborted .Full) := by
  constructor
  · intro h
    constructor
    · simp [trySend, h]
    · simp [checkIntersectionsSend, trySend, h]
  · intro h hfull
    constructor
    · simp [trySend, h, hfull]
    · simp [checkIntersectionsSend, trySend, h, hfull]

/-- Witness for C7: a full channel of capacity zero rejects a seek
message and the reference caller aborts. -/
theorem c7_send_failure_surfaced_witness :
    trySend ⟨0, true, []⟩
        (.NodeControl 101 (.SeekWhenIdeal (some 1))) = .error .Full
      ∧ checkIntersectionsSend ⟨0, true, []⟩ 101 1 = .aborted .Full :=
  (c7_send_failure_surfaced ⟨0, true, []⟩ 101 1
    (.NodeControl 101 (.SeekWhenIdeal (some 1)))).2 rfl (by decide)

/-- Claim C8: when two seek-to-anchor requests arrive before any safe
boundary, the later one supersedes the earlier: at the boundary exactly
one relocation happens, to the second anchor. -/
theorem c8_latest_seek_wins (s : SeekState) (a1 a2 : Nat) :
    reachSafeBoundary (receiveSeekWhenIdeal (receiveSeekWhenIdeal s a1) a2)
      = { pendingSeek := none, currentAnchor := a2,
          appliedSeeks := s.appliedSeeks ++ [a2] } := rfl

/-- Claim C9: a combiner with an empty child list compiles successfully
to a node with zero children and an empty Control Channel collection. -/
theorem c9_empty_combiner_ok (ext : Ext) (st : Stores) (nid : Nat) :
    load ext st (.Combiner nid []) = .ok ([], .combiner nid []) := rfl

/-- Claim C10: the loader is deterministic in the loaded asset contents —
two runs over the same description with extensionally equal stores (and
the same external constructors) return identical results: same channels,
same node shape, or the same error. -/
theorem c10_deterministic (ext : Ext) (st1 st2 : Stores) (s : SoundSource)
    (hm : ∀ p, st1.midiAssets p = st2.midiAssets p)
    (hs : ∀ p, st1.sf2Assets p = st2.sf2Assets p)
    (hl : ∀ p, st1.loopAssets p = st2.loopAssets p)
    (ho : ∀ p, st1.oneShotAssets p = st2.oneShotAssets p) :
    load ext st1 s = load ext st2 s := by
  obtain ⟨m1, s1, l1, o1⟩ := st1
  obtain ⟨m2, s2, l2, o2⟩ := st2
  have h1 : m1 = m2 := funext hm
  have h2 : s1 = s2 := funext hs
  have h3 : l1 = l2 := funext hl
  have h4 : o1 = o2 := funext ho
  subst h1 h2 h3 h4
  rfl

/-- Witness for C10: two syntactically different but extensionally equal
empty stores give identical results on a concrete description. -/
theorem c10_deterministic_witness :
    load okExt emptyStores (.EventReceiver 5 (.SquareWave 1 2 3))
      = load okExt
          ⟨fun _ => none, fun _ => none, fun _ => none, fun _ => none⟩
          (.EventReceiver 5 (.SquareWave 1 2 3)) :=
  c10_deterministic okExt emptyStores
    ⟨fun _ => none, fun _ => none, fun _ => none, fun _ => none⟩
    (.EventReceiver 5 (.SquareWave 1 2 3)) (fun _ => rfl) (fun _ => rfl)
    (fun _ => rfl) (fun _ => rfl)

end MidiGraph
